import Mathlib

/-!
Shallow embedding of `src/register-k8s.py`, a one-shot command-line script
that fetches a Kubernetes service-account token, discovers the cluster API
address, and POSTs a JSON payload to a registration endpoint.

Conventions of the embedding:
* Python strings are Lean `String`s; where character-level reasoning is
  needed we pass through `String.data : List Char`.
* Python `dict`s are association lists with insertion-order semantics:
  assignment to an existing key overwrites in place, a new key is appended.
* Library calls that touch the outside world (Kubernetes API, subprocess,
  HTTP POST, `json.loads`) are parameters of the embedded functions: the
  caller supplies their outcome, and the embedding reproduces the script's
  control flow on that outcome.
* A Python function that prints and may raise is embedded as a function
  returning `List String × _` (the lines printed, in order, and the result);
  an exception escaping a scope is an `Except.error`.
-/

namespace RegisterK8s

/-- Truthiness of an `Optional[str]` in Python: `None` and `""` are falsy. -/
def pyTruthy : Option String → Bool
  | none => false
  | some s => !(s == "")

/-- JSON-compatible values, enough to model the registration payload. -/
inductive JVal where
  | str (s : String)
  | num (n : Int)
  | bool (b : Bool)
  | null
  | arr (xs : List JVal)
  | obj (fields : List (String × JVal))

/-- A Python `dict` with string keys, as an insertion-ordered assoc list. -/
abbrev PyDict (α : Type) := List (String × α)

/-- `d.get(k)` / `d[k]` lookup: first (and only) binding of `k`. -/
def dictGet {α : Type} (d : PyDict α) (k : String) : Option α :=
  match d with
  | [] => none
  | p :: rest => if p.1 == k then some p.2 else dictGet rest k

/-- `d[k] = v`: overwrite the existing binding in place, else append. -/
def dictInsert {α : Type} (d : PyDict α) (k : String) (v : α) : PyDict α :=
  if d.any (fun p => p.1 == k) then
    d.map (fun p => if p.1 == k then (k, v) else p)
  else
    d ++ [(k, v)]

/-! ## Credential resolver: `get_service_account_token` -/

/-- A `kubernetes.client.ApiException` carrying its printed form. -/
structure ApiErr where
  msg : String
  deriving Repr, DecidableEq

/-- A Kubernetes secret object as the script uses it: its `type` string and
its `data` mapping (the script reads `secret.data.get('token')`). -/
structure SecretObj where
  type : String
  data : PyDict String
  deriving Repr, DecidableEq

/-- The secret type string the script matches on. -/
def saTokenType : String := "kubernetes.io/service-account-token"

/-- The loop over `sa.secrets` inside `get_service_account_token`:
for each secret reference name, fetch the full secret
(`api.read_namespaced_secret`); if its type is the service-account-token
type, return `secret.data.get('token')` when that is truthy, else print an
error and continue.  Returns the printed lines and either the propagated
`ApiException` of a fetch or the optional token. -/
def secretLoop (fetch : String → Except ApiErr SecretObj) :
    List String → List String × Except ApiErr (Option String)
  | [] => ([], Except.ok none)
  | name :: rest =>
    match fetch name with
    | Except.error e => ([], Except.error e)
    | Except.ok s =>
      if s.type == saTokenType then
        match dictGet s.data "token" with
        | some t =>
          if t == "" then
            (("Error: Could not find 'token' in secret '" ++ name ++ "'.") ::
                (secretLoop fetch rest).1,
              (secretLoop fetch rest).2)
          else
            ([], Except.ok (some t))
        | none =>
          (("Error: Could not find 'token' in secret '" ++ name ++ "'.") ::
              (secretLoop fetch rest).1,
            (secretLoop fetch rest).2)
      else
        secretLoop fetch rest

/-- `get_service_account_token(namespace, service_account_name)`.
`saResult` is the outcome of `api.read_namespaced_service_account` —
an `ApiException` or the list of secret-reference names (`sa.secrets`;
`None` and `[]` are both falsy so the empty list models both) — and
`fetch` is the outcome of `api.read_namespaced_secret` per name.
Returns the printed lines and the optional token; every exception the
function catches is turned into a printed diagnostic and `None`. -/
def get_service_account_token (saResult : Except ApiErr (List String))
    (fetch : String → Except ApiErr SecretObj)
    (service_account_name : String) : List String × Option String :=
  match saResult with
  | Except.error e =>
    (["Error retrieving service account token: " ++ e.msg], none)
  | Except.ok secrets =>
    if secrets.isEmpty then
      (["Error: Service account '" ++ service_account_name ++ "' has no secrets."], none)
    else
      match secretLoop fetch secrets with
      | (out, Except.error e) =>
        (out ++ ["Error retrieving service account token: " ++ e.msg], none)
      | (out, Except.ok (some t)) => (out, some t)
      | (out, Except.ok none) =>
        (out ++ ["Error: No token secret found for service account '" ++
          service_account_name ++ "'."], none)

/-! ## Address resolver variant A: `get_k8s_api_url` -/

/-- `get_k8s_api_url()`: builds `https://<host>:<port>` from the
`KUBERNETES_SERVICE_HOST` / `KUBERNETES_SERVICE_PORT` environment
variables (`os.environ.get`, so an unset variable is `None`); both must be
truthy.  Returns the printed lines and the optional URL. -/
def get_k8s_api_url (host port : Option String) : List String × Option String :=
  if pyTruthy host && pyTruthy port then
    let api_url := "https://" ++ host.getD "" ++ ":" ++ port.getD ""
    (["Kubernetes API URL: " ++ api_url], some api_url)
  else
    (["KUBERNETES_SERVICE_HOST or KUBERNETES_SERVICE_PORT environment variables are not set."],
      none)

/-! ## Address resolver variant B: `get_k8s_api_url_from_cluster_info`

The script runs `kubectl cluster-info` (with `check=True`) and applies
`re.search(r'Kubernetes control plane is running at\s+(https?://.*)', output)`.
The regex is embedded directly: the literal marker, then one or more
whitespace characters, then `http` / `https` followed by `://`, then `.*`
(greedy, stopping at a newline); `re.search` takes the leftmost position at
which the whole pattern matches, and `group(1)` is everything from the
scheme to the end of the line. -/

/-- The literal marker phrase of the regex. -/
def marker : List Char := "Kubernetes control plane is running at".data

/-- Python `\s` on the ASCII range: space, tab, newline, carriage return,
form feed, vertical tab. -/
def isPySpace (c : Char) : Bool :=
  c == ' ' || c == '\t' || c == '\n' || c == '\r' || c == '\x0c' || c == '\x0b'

/-- Strip a literal prefix, or fail. -/
def dropLit : List Char → List Char → Option (List Char)
  | [], s => some s
  | _ :: _, [] => none
  | p :: ps, c :: cs => if p == c then dropLit ps cs else none

/-- Try to match the whole pattern at the start of `s`; on success return
the text of capture group 1 (`https?://.*`). -/
def matchAt (s : List Char) : Option (List Char) :=
  match dropLit marker s with
  | none => none
  | some rest =>
    let ws := rest.takeWhile isPySpace
    let rest2 := rest.dropWhile isPySpace
    if ws.isEmpty then none
    else
      match dropLit "https://".data rest2 with
      | some tail => some ("https://".data ++ tail.takeWhile (fun c => !(c == '\n')))
      | none =>
        match dropLit "http://".data rest2 with
        | some tail => some ("http://".data ++ tail.takeWhile (fun c => !(c == '\n')))
        | none => none

/-- `re.search`: try the pattern at each position, left to right. -/
def reSearch : List Char → Option (List Char)
  | [] => none
  | c :: rest =>
    match matchAt (c :: rest) with
    | some g => some g
    | none => reSearch rest

/-- Outcome of `subprocess.run(['kubectl', 'cluster-info'], ..., check=True)`:
exit 0 with captured stdout, a `CalledProcessError` (non-zero exit, raised
because of `check=True`), or any other exception. -/
inductive ClusterInfoRun where
  | ok (stdout : String)
  | calledProcessError (msg : String)
  | otherError (msg : String)

/-- `get_k8s_api_url_from_cluster_info()`: run the command, search the
output with the regex; print and return the captured URL, or print a
diagnostic and return `None` on no match, non-zero exit, or any other
exception.  Returns the printed lines and the optional URL. -/
def get_k8s_api_url_from_cluster_info (run : ClusterInfoRun) :
    List String × Option String :=
  match run with
  | ClusterInfoRun.ok out =>
    match reSearch out.data with
    | some url =>
      let u := String.mk url
      (["Kubernetes API URL (from cluster-info): " ++ u], some u)
    | none =>
      (["Error: Could not parse Kubernetes API URL from 'kubectl cluster-info' output."],
        none)
  | ClusterInfoRun.calledProcessError m =>
    (["Error running 'kubectl cluster-info': " ++ m], none)
  | ClusterInfoRun.otherError m =>
    (["An unexpected error occurred: " ++ m], none)

/-! ## Registration client: `make_api_request` -/

/-- The header dict `{header_name: api_token, "Content-Type": "application/json"}`,
built left to right with Python dict semantics (a duplicate key is
overwritten by the later entry). -/
def requestHeaders (header_name api_token : String) : PyDict String :=
  dictInsert (dictInsert [] header_name api_token) "Content-Type" "application/json"

/-- An HTTP response as the script observes it: status code, body text, and
the pretty-printed JSON of the body when `response.json()` succeeds. -/
structure HttpResponse where
  status_code : Nat
  text : String
  jsonPretty : Option String

/-- Truthiness of a `requests.Response`: `bool(response)` is `response.ok`,
i.e. `status_code < 400`. -/
def responseTruthy (r : HttpResponse) : Bool := r.status_code < 400

/-- An exception escaping `make_api_request`. -/
inductive PyErr where
  | requestException (msg : String)
  | unboundLocal
  deriving Repr, DecidableEq

/-- The `except requests.exceptions.RequestException` handler of
`make_api_request`.  `errMsg` is the exception's printed form and
`response` is the state of the local variable `response`: `none` when the
exception was raised by `requests.post` itself, so the assignment never ran
and the name is unbound.  The handler prints the error, then evaluates
`if response:` — referencing an unbound local raises `UnboundLocalError`;
a bound response is truthy only when `response.ok`, and only then are the
status code and body printed — and finally re-raises. -/
def requestExceptHandler (errMsg : String) (response : Option HttpResponse) :
    List String × Except PyErr Unit :=
  let out := ["Error making API request: " ++ errMsg]
  match response with
  | none => (out, Except.error PyErr.unboundLocal)
  | some r =>
    if responseTruthy r then
      (out ++ ["Response status code: " ++ toString r.status_code,
               "Response content: " ++ r.text],
        Except.error (PyErr.requestException errMsg))
    else
      (out, Except.error (PyErr.requestException errMsg))

/-- `make_api_request(api_url, header_name, api_token, payload)`.
`postOutcome` is the outcome of `requests.post`: a transport-level
`RequestException` (no response object), or a response.
`response.raise_for_status()` raises `HTTPError` exactly when the status
code is 400 or above; on success the body is pretty-printed as JSON when it
parses, else printed raw.  Returns the printed lines and either `()` or the
escaping exception. -/
def make_api_request (postOutcome : Except String HttpResponse) :
    List String × Except PyErr Unit :=
  match postOutcome with
  | Except.error msg => requestExceptHandler msg none
  | Except.ok r =>
    if 400 ≤ r.status_code then
      requestExceptHandler
        (toString r.status_code ++ " Error for url") (some r)
    else
      match r.jsonPretty with
      | some pretty => (["API request successful:", pretty], Except.ok ())
      | none => (["API request successful:", r.text], Except.ok ())

/-! ## `print(payload)`: Python `repr` of the payload dict -/

mutual

/-- Python `repr` of a JSON-compatible value. -/
def reprJVal : JVal → String
  | JVal.str s => "'" ++ s ++ "'"
  | JVal.num n => toString n
  | JVal.bool b => if b then "True" else "False"
  | JVal.null => "None"
  | JVal.arr xs => "[" ++ reprJList xs ++ "]"
  | JVal.obj fs => "\x7b" ++ reprJFields fs ++ "\x7d"

/-- Comma-separated `repr`s of list elements. -/
def reprJList : List JVal → String
  | [] => ""
  | [x] => reprJVal x
  | x :: y :: rest => reprJVal x ++ ", " ++ reprJList (y :: rest)

/-- Comma-separated `'key': repr(value)` entries of a dict. -/
def reprJFields : List (String × JVal) → String
  | [] => ""
  | [(k, v)] => "'" ++ k ++ "': " ++ reprJVal v
  | (k, v) :: p :: rest =>
    "'" ++ k ++ "': " ++ reprJVal v ++ ", " ++ reprJFields (p :: rest)

end

/-- Python `repr` of a payload dict, as `print(payload)` shows it. -/
def reprPayload (d : PyDict JVal) : String := "\x7b" ++ reprJFields d ++ "\x7d"

/-! ## Entry point: the `__main__` block -/

/-- The parsed CLI arguments.  `--api-url` and `--api-token` default to
`os.environ.get(...)` and so may be `None`; the others have non-`None`
defaults. -/
structure Args where
  api_url : Option String
  header_name : String
  api_token : Option String
  payload_str : String
  k8sNamespace : String
  service_account_name : String

/-- Observable events of one run, in program order: a printed line, the
Kubernetes service-account/secret lookup, the `kubectl cluster-info`
subprocess, and the registration POST carrying its headers and JSON body. -/
inductive Event where
  | print (s : String)
  | kubeLookup
  | clusterInfoCall
  | registrationCall (headers : PyDict String) (body : PyDict JVal)

/-- Is this event the registration POST? -/
def Event.isRegCall : Event → Bool
  | Event.registrationCall _ _ => true
  | _ => false

/-- Is this event the Kubernetes service-account/secret lookup? -/
def Event.isKubeLookup : Event → Bool
  | Event.kubeLookup => true
  | _ => false

/-- Is this event the `kubectl cluster-info` subprocess call? -/
def Event.isClusterInfoCall : Event → Bool
  | Event.clusterInfoCall => true
  | _ => false

/-- The outside world of one run: the outcomes of every external call the
script can make.  `parse` is the outcome of `json.loads(args.payload_str)`
(a `JSONDecodeError` message, or the parsed object's fields). -/
structure World where
  saResult : Except ApiErr (List String)
  fetch : String → Except ApiErr SecretObj
  parse : Except String (PyDict JVal)
  clusterInfo : ClusterInfoRun
  post : Except String HttpResponse

/-- The `__main__` block after argument parsing: validate `--api-url` and
`--api-token`, resolve the service-account token, parse the payload and add
the token under `service_token`, print the payload, resolve the cluster
address and add it under `api_address`, send the registration request, and
exit: code 1 on any failure, code 0 on success.  Returns the event trace
and the exit code. -/
def mainRun (args : Args) (w : World) : List Event × Nat :=
  if !(pyTruthy args.api_url && pyTruthy args.api_token) then
    ([Event.print
        "Error: --api-url and --api-token are required (or set API_URL and API_TOKEN env vars)."],
      1)
  else
    let sa := get_service_account_token w.saResult w.fetch args.service_account_name
    let evs := Event.kubeLookup :: sa.1.map Event.print
    match sa.2 with
    | none =>
      (evs ++ [Event.print "Failed to retrieve service account token. Exiting."], 1)
    | some tok =>
      match w.parse with
      | Except.error e =>
        (evs ++ [Event.print ("Error decoding payload JSON: " ++ e)], 1)
      | Except.ok payload0 =>
        let payload1 := dictInsert payload0 "service_token" (JVal.str tok)
        let evs := evs ++ [Event.print (reprPayload payload1)]
        let ci := get_k8s_api_url_from_cluster_info w.clusterInfo
        let evs := evs ++ Event.clusterInfoCall :: ci.1.map Event.print
        match ci.2 with
        | none =>
          (evs ++ [Event.print "Failed to retrieve Kubernetes API address. Exiting."], 1)
        | some url =>
          let payload2 := dictInsert payload1 "api_address" (JVal.str url)
          let req := make_api_request w.post
          let evs := evs ++
            Event.registrationCall
              (requestHeaders args.header_name (args.api_token.getD "")) payload2 ::
            req.1.map Event.print
          match req.2 with
          | Except.ok _ => (evs, 0)
          | Except.error e =>
            (evs ++ [Event.print ("An error occurred during API request: " ++
              (match e with
               | PyErr.requestException m => m
               | PyErr.unboundLocal =>
                 "cannot access local variable 'response' where it is not associated with a value"))],
              1)

/-- The body of the registration POST: the parsed payload with the resolved
token inserted under `service_token` and the resolved address inserted
under `api_address` (in that order, as the script does it). -/
def requestBody (payload0 : PyDict JVal) (tok url : String) : PyDict JVal :=
  dictInsert (dictInsert payload0 "service_token" (JVal.str tok)) "api_address" (JVal.str url)

/-! ## Derived notions used by the statements -/

/-- A secret qualifies for the loop's early return: its type is the
service-account-token type and `data.get('token')` is truthy. -/
def qualifies (s : SecretObj) : Bool :=
  s.type == saTokenType &&
    (match dictGet s.data "token" with
     | some t => !(t == "")
     | none => false)

/-- The error lines the loop prints for the names it scans without
returning: one line per fetched secret of the token type (those are
exactly the scanned token-type secrets whose token field is missing or
empty). -/
def skippedPrints (fetch : String → Except ApiErr SecretObj) (names : List String) :
    List String :=
  names.filterMap fun x =>
    match fetch x with
    | Except.ok sx =>
      if sx.type == saTokenType then
        some ("Error: Could not find 'token' in secret '" ++ x ++ "'.")
      else none
    | Except.error _ => none

/-! ## Lemmas about the Python dict model -/

theorem dictGet_append {α : Type} (d₁ d₂ : PyDict α) (k : String) :
    dictGet (d₁ ++ d₂) k = (dictGet d₁ k).or (dictGet d₂ k) := by
  induction d₁ with
  | nil => simp [dictGet]
  | cons p d ih =>
    by_cases hp : p.1 = k
    · simp [dictGet, hp]
    · simp [dictGet, hp, ih]

theorem dictGet_ne_none_iff_any {α : Type} (d : PyDict α) (k : String) :
    d.any (fun p => p.1 == k) = true ↔ dictGet d k ≠ none := by
  induction d with
  | nil => simp [dictGet]
  | cons p d ih =>
    by_cases hp : p.1 = k
    · simp [dictGet, hp]
    · simp [dictGet, hp, ih]

theorem dictGet_map_overwrite {α : Type} (d : PyDict α) (k k' : String) (v : α)
    (h : k' ≠ k) :
    dictGet (d.map (fun p => if p.1 == k then (k, v) else p)) k' = dictGet d k' := by
  simp only [beq_iff_eq]
  induction d with
  | nil => rfl
  | cons p d ih =>
    by_cases hp : p.1 = k
    · simp [dictGet, hp, Ne.symm h, ih]
    · simp [dictGet, hp, ih]

theorem dictGet_map_self {α : Type} (d : PyDict α) (k : String) (v : α)
    (hsome : dictGet d k ≠ none) :
    dictGet (d.map (fun p => if p.1 == k then (k, v) else p)) k = some v := by
  simp only [beq_iff_eq]
  induction d with
  | nil => simp [dictGet] at hsome
  | cons p d ih =>
    by_cases hp : p.1 = k
    · simp [dictGet, hp]
    · simp only [dictGet, hp, if_neg, beq_iff_eq, not_false_iff] at hsome
      simp [dictGet, hp]
      exact ih hsome

theorem dictGet_dictInsert_self {α : Type} (d : PyDict α) (k : String) (v : α) :
    dictGet (dictInsert d k v) k = some v := by
  unfold dictInsert
  by_cases hnone : dictGet d k = none
  · have hany : d.any (fun p => p.1 == k) = false := by
      rw [← Bool.not_eq_true, dictGet_ne_none_iff_any]
      simpa using hnone
    simp [hany, dictGet_append, hnone, dictGet]
  · have hany : d.any (fun p => p.1 == k) = true :=
      (dictGet_ne_none_iff_any d k).mpr hnone
    simp only [hany, if_pos rfl]
    exact dictGet_map_self d k v hnone

theorem dictGet_dictInsert_ne {α : Type} (d : PyDict α) (k k' : String) (v : α)
    (h : k' ≠ k) :
    dictGet (dictInsert d k v) k' = dictGet d k' := by
  unfold dictInsert
  by_cases hany : d.any (fun p => p.1 == k) = true
  · simp only [hany, if_pos rfl]
    exact dictGet_map_overwrite d k k' v h
  · simp only [hany, if_neg, Bool.false_eq_true, not_false_iff]
    simp [dictGet_append, dictGet, Ne.symm h]

theorem mem_dictInsert_self {α : Type} (d : PyDict α) (k : String) (v : α) :
    (k, v) ∈ dictInsert d k v := by
  unfold dictInsert
  by_cases hany : d.any (fun p => p.1 == k) = true
  · simp only [hany, if_pos rfl]
    obtain ⟨p, hp, hpk⟩ := List.any_eq_true.mp hany
    exact List.mem_map.mpr ⟨p, hp, by simp [hpk]⟩
  · simp [hany]

/-! ## Lemmas about the secret-scanning loop -/

theorem qualifies_false_cases (s : SecretObj) (hq : qualifies s = false)
    (hty : s.type = saTokenType) :
    dictGet s.data "token" = none ∨ dictGet s.data "token" = some "" := by
  unfold qualifies at hq
  rw [hty] at hq
  cases hdg : dictGet s.data "token" with
  | none => exact Or.inl rfl
  | some t =>
    rw [hdg] at hq
    simp at hq
    exact Or.inr (by rw [hq])

/-- Scanning a block of fetch-ok, non-qualifying names prepends their error
lines and otherwise behaves like scanning the remainder. -/
theorem secretLoop_append_skip (fetch : String → Except ApiErr SecretObj)
    (pre rest : List String)
    (h : ∀ m ∈ pre, ∃ sm, fetch m = Except.ok sm ∧ qualifies sm = false) :
    secretLoop fetch (pre ++ rest) =
      (skippedPrints fetch pre ++ (secretLoop fetch rest).1,
        (secretLoop fetch rest).2) := by
  induction pre with
  | nil => simp [skippedPrints]
  | cons m pre ih =>
    obtain ⟨sm, hfm, hq⟩ := h m (List.mem_cons_self m pre)
    have ih' := ih (fun x hx => h x (List.mem_cons_of_mem m hx))
    by_cases hty : sm.type = saTokenType
    · rcases qualifies_false_cases sm hq hty with htok | htok
      · simp [secretLoop, skippedPrints, hfm, hty, htok, ih']
      · simp [secretLoop, skippedPrints, hfm, hty, htok, ih']
    · have hty' : (sm.type == saTokenType) = false := by simp [hty]
      simp [secretLoop, skippedPrints, hfm, hty', ih', List.filterMap_cons, hty]

/-- Scanning from a qualifying secret returns its token at once. -/
theorem secretLoop_found (fetch : String → Except ApiErr SecretObj)
    (n : String) (s : SecretObj) (t : String) (rest : List String)
    (hn : fetch n = Except.ok s) (hty : s.type = saTokenType)
    (ht : dictGet s.data "token" = some t) (ht0 : t ≠ "") :
    secretLoop fetch (n :: rest) = ([], Except.ok (some t)) := by
  simp [secretLoop, hn, hty, ht, ht0]

/-- Full evaluation of the resolver when the secret list is a block of
fetch-ok non-qualifying names followed by a qualifying one. -/
theorem get_token_eval (fetch : String → Except ApiErr SecretObj) (san : String)
    (pre post : List String) (n : String) (s : SecretObj) (t : String)
    (hpre : ∀ m ∈ pre, ∃ sm, fetch m = Except.ok sm ∧ qualifies sm = false)
    (hn : fetch n = Except.ok s) (hty : s.type = saTokenType)
    (ht : dictGet s.data "token" = some t) (ht0 : t ≠ "") :
    get_service_account_token (Except.ok (pre ++ n :: post)) fetch san =
      (skippedPrints fetch pre, some t) := by
  have hne : (pre ++ n :: post).isEmpty = false := by cases pre <;> simp
  have h1 := secretLoop_append_skip fetch pre (n :: post) hpre
  have h2 := secretLoop_found fetch n s t post hn hty ht ht0
  rw [h2] at h1
  simp [get_service_account_token, hne, h1]

/-- Whenever the resolver returns `None`, it has printed at least one
diagnostic line. -/
theorem get_token_none_prints (saResult : Except ApiErr (List String))
    (fetch : String → Except ApiErr SecretObj) (san : String)
    (hn : (get_service_account_token saResult fetch san).2 = none) :
    (get_service_account_token saResult fetch san).1 ≠ [] := by
  unfold get_service_account_token at hn ⊢
  match saResult with
  | Except.error e => simp
  | Except.ok secrets =>
    by_cases hsec : secrets.isEmpty
    · simp [hsec]
    · simp only [hsec, Bool.false_eq_true, if_neg, not_false_iff] at hn ⊢
      rcases hp : secretLoop fetch secrets with ⟨out, r⟩
      rcases r with e | ro
      · show out ++ ["Error retrieving service account token: " ++ e.msg] ≠ []
        simp
      · rcases ro with _ | t
        · show out ++
            ["Error: No token secret found for service account '" ++ san ++ "'."] ≠ []
          simp
        · rw [hp] at hn
          exact (Option.some_ne_none t hn).elim

/-! ## Claim theorems -/

/-- C1: for a service account whose secret list mixes types, the resolver
returns the token of the first secret (in list order) whose type is the
service-account-token type and whose `token` field is present (truthy):
all earlier secrets fail to qualify, and whatever follows the first
qualifying secret is ignored — first match wins, not last. -/
theorem first_qualifying_secret_token_wins
    (fetch : String → Except ApiErr SecretObj) (san : String)
    (pre post : List String) (n : String) (s : SecretObj) (t : String)
    (hpre : ∀ m ∈ pre, ∃ sm, fetch m = Except.ok sm ∧ qualifies sm = false)
    (hn : fetch n = Except.ok s) (hty : s.type = saTokenType)
    (ht : dictGet s.data "token" = some t) (ht0 : t ≠ "") :
    (get_service_account_token (Except.ok (pre ++ n :: post)) fetch san).2 = some t := by
  rw [get_token_eval fetch san pre post n s t hpre hn hty ht ht0]

/-- Witness for C1: secrets `a` (wrong type), `b` (token type, token `T1`),
`c` (token type, token `T2`); the resolver returns `T1`, the first match,
not the last. -/
theorem first_qualifying_secret_token_wins_witness :
    (get_service_account_token (Except.ok ["a", "b", "c"])
      (fun nm =>
        if nm = "a" then Except.ok ⟨"Opaque", [("token", "zz")]⟩
        else if nm = "b" then Except.ok ⟨saTokenType, [("token", "T1")]⟩
        else Except.ok ⟨saTokenType, [("token", "T2")]⟩) "default").2 = some "T1" :=
  first_qualifying_secret_token_wins
    (fun nm =>
      if nm = "a" then Except.ok ⟨"Opaque", [("token", "zz")]⟩
      else if nm = "b" then Except.ok ⟨saTokenType, [("token", "T1")]⟩
      else Except.ok ⟨saTokenType, [("token", "T2")]⟩) "default"
    ["a"] ["c"] "b" ⟨saTokenType, [("token", "T1")]⟩ "T1"
    (by
      intro m hm
      rw [List.mem_singleton] at hm
      subst hm
      exact ⟨⟨"Opaque", [("token", "zz")]⟩, rfl, by decide⟩)
    rfl rfl (by decide) (by decide)

/-- C10: a secret of the token type whose `token` field is missing (or
empty, which Python treats the same) makes the loop print an error line
for that secret and continue scanning, so a later qualifying secret still
yields the returned token. -/
theorem missing_token_field_prints_and_continues
    (fetch : String → Except ApiErr SecretObj) (san : String)
    (pre post : List String) (n m : String) (s sm : SecretObj) (t : String)
    (hpre : ∀ x ∈ pre, ∃ sx, fetch x = Except.ok sx ∧ qualifies sx = false)
    (hm : m ∈ pre) (hsm : fetch m = Except.ok sm) (htym : sm.type = saTokenType)
    (hn : fetch n = Except.ok s) (hty : s.type = saTokenType)
    (ht : dictGet s.data "token" = some t) (ht0 : t ≠ "") :
    ("Error: Could not find 'token' in secret '" ++ m ++ "'.")
        ∈ (get_service_account_token (Except.ok (pre ++ n :: post)) fetch san).1
    ∧ (get_service_account_token (Except.ok (pre ++ n :: post)) fetch san).2 = some t := by
  rw [get_token_eval fetch san pre post n s t hpre hn hty ht ht0]
  constructor
  · exact List.mem_filterMap.mpr ⟨m, hm, by simp [hsm, htym]⟩
  · rfl

/-- Witness for C10: secret `a` has the token type but no `token` field;
the resolver prints the error line for `a` and still returns `T1` from the
later secret `b`. -/
theorem missing_token_field_prints_and_continues_witness :
    ("Error: Could not find 'token' in secret 'a'.")
        ∈ (get_service_account_token (Except.ok ["a", "b"])
            (fun nm =>
              if nm = "a" then Except.ok ⟨saTokenType, [("other", "x")]⟩
              else Except.ok ⟨saTokenType, [("token", "T1")]⟩) "default").1
    ∧ (get_service_account_token (Except.ok ["a", "b"])
        (fun nm =>
          if nm = "a" then Except.ok ⟨saTokenType, [("other", "x")]⟩
          else Except.ok ⟨saTokenType, [("token", "T1")]⟩) "default").2 = some "T1" :=
  missing_token_field_prints_and_continues
    (fun nm =>
      if nm = "a" then Except.ok ⟨saTokenType, [("other", "x")]⟩
      else Except.ok ⟨saTokenType, [("token", "T1")]⟩) "default"
    ["a"] [] "b" "a" ⟨saTokenType, [("token", "T1")]⟩ ⟨saTokenType, [("other", "x")]⟩ "T1"
    (by
      intro x hx
      rw [List.mem_singleton] at hx
      subst hx
      exact ⟨⟨saTokenType, [("other", "x")]⟩, rfl, by decide⟩)
    (List.mem_singleton_self "a") rfl rfl rfl rfl (by decide) (by decide)

/-- C2: the resolver returns a token string or `None`, every `None` comes
with at least one printed diagnostic; exactly one token-type secret with a
present token field yields that token; zero secrets yields `None`; an
`ApiException` during the account lookup or during a secret lookup is
caught and reported, and the resolver returns `None` instead of letting
the exception escape. -/
theorem resolver_contract_token_or_absent
    (saResult : Except ApiErr (List String))
    (fetch : String → Except ApiErr SecretObj) (san : String) :
    ((get_service_account_token saResult fetch san).2 = none →
        (get_service_account_token saResult fetch san).1 ≠ [])
    ∧ (∀ n s t, saResult = Except.ok [n] → fetch n = Except.ok s →
        s.type = saTokenType → dictGet s.data "token" = some t → t ≠ "" →
        (get_service_account_token saResult fetch san).2 = some t)
    ∧ (saResult = Except.ok [] →
        get_service_account_token saResult fetch san =
          (["Error: Service account '" ++ san ++ "' has no secrets."], none))
    ∧ (∀ e, saResult = Except.error e →
        get_service_account_token saResult fetch san =
          (["Error retrieving service account token: " ++ e.msg], none))
    ∧ (∀ secrets e, saResult = Except.ok secrets →
        (secretLoop fetch secrets).2 = Except.error e →
        (get_service_account_token saResult fetch san).2 = none ∧
          ("Error retrieving service account token: " ++ e.msg) ∈
            (get_service_account_token saResult fetch san).1) := by
  refine ⟨get_token_none_prints saResult fetch san, ?_, ?_, ?_, ?_⟩
  · intro n s t hsa hn hty ht ht0
    subst hsa
    have h := get_token_eval fetch san [] [] n s t (by intro m hm; simp at hm)
      hn hty ht ht0
    rw [show Except.ok ([n] : List String) = Except.ok ([] ++ n :: []) from rfl, h]
  · intro hsa
    subst hsa
    simp [get_service_account_token]
  · intro e hsa
    subst hsa
    simp [get_service_account_token]
  · intro secrets e hsa hloop
    subst hsa
    have hsec : secrets.isEmpty = false := by
      cases hs : secrets with
      | nil => rw [hs] at hloop; simp [secretLoop] at hloop
      | cons a l => simp
    unfold get_service_account_token
    simp only [hsec, Bool.false_eq_true, if_neg, not_false_iff]
    rcases hp : secretLoop fetch secrets with ⟨out, r⟩
    rw [hp] at hloop
    have hr : r = Except.error e := hloop
    subst hr
    exact ⟨rfl, List.mem_append_right out (List.mem_singleton_self _)⟩

/-- Witness for C2: one qualifying secret yields its token; an empty
secret list yields `None` with the no-secrets diagnostic. -/
theorem resolver_contract_token_or_absent_witness :
    (get_service_account_token (Except.ok ["s1"])
        (fun _ => Except.ok ⟨saTokenType, [("token", "tok")]⟩) "default").2 = some "tok"
    ∧ get_service_account_token (Except.ok [])
        (fun _ => Except.ok ⟨saTokenType, [("token", "tok")]⟩) "default" =
        (["Error: Service account 'default' has no secrets."], none) := by
  constructor
  · exact (resolver_contract_token_or_absent (Except.ok ["s1"])
      (fun _ => Except.ok ⟨saTokenType, [("token", "tok")]⟩) "default").2.1
      "s1" ⟨saTokenType, [("token", "tok")]⟩ "tok" rfl rfl rfl (by decide) (by decide)
  · exact (resolver_contract_token_or_absent (Except.ok [])
      (fun _ => Except.ok ⟨saTokenType, [("token", "tok")]⟩) "default").2.2.1 rfl

/-- C7: with both environment variables set and non-empty, variant A
returns `https://<host>:<port>` (and prints it); with either variable
absent it prints a diagnostic and returns `None`. -/
theorem env_address_resolver_contract (host port : Option String) :
    (∀ h p, host = some h → h ≠ "" → port = some p → p ≠ "" →
      get_k8s_api_url host port =
        (["Kubernetes API URL: " ++ ("https://" ++ h ++ ":" ++ p)],
          some ("https://" ++ h ++ ":" ++ p)))
    ∧ (host = none ∨ port = none →
      get_k8s_api_url host port =
        (["KUBERNETES_SERVICE_HOST or KUBERNETES_SERVICE_PORT environment variables are not set."],
          none)) := by
  constructor
  · intro h p hh hne hp hpe
    subst hh
    subst hp
    simp [get_k8s_api_url, pyTruthy, hne, hpe]
  · intro hcase
    rcases hcase with hh | hp
    · subst hh
      simp [get_k8s_api_url, pyTruthy]
    · subst hp
      simp [get_k8s_api_url, pyTruthy]

/-- Witness for C7: host `10.0.0.1` and port `443` yield
`https://10.0.0.1:443`; an absent host yields `None` with the diagnostic. -/
theorem env_address_resolver_contract_witness :
    get_k8s_api_url (some "10.0.0.1") (some "443") =
      (["Kubernetes API URL: https://10.0.0.1:443"], some "https://10.0.0.1:443")
    ∧ get_k8s_api_url none (some "443") =
      (["KUBERNETES_SERVICE_HOST or KUBERNETES_SERVICE_PORT environment variables are not set."],
        none) := by
  constructor
  · exact ((env_address_resolver_contract (some "10.0.0.1") (some "443")).1
      "10.0.0.1" "443" rfl (by decide) rfl (by decide)).trans (by decide)
  · exact (env_address_resolver_contract none (some "443")).2 (Or.inl rfl)

/-- C6: on a transport-level `RequestException` — `requests.post` raised,
so the local variable `response` was never assigned — the error handler
prints the error line and then itself fails: evaluating `if response:`
raises `UnboundLocalError`, which escapes instead of the original
exception.  This holds for every such execution. -/
theorem transport_error_breaks_error_handler (msg : String) :
    make_api_request (Except.error msg) =
      (["Error making API request: " ++ msg], Except.error PyErr.unboundLocal) := rfl

/-- C5 (evidence for a code bug): on a response with an HTTP-error status
the handler prints only the single error line and re-raises; the
`if response:` guard evaluates the truthiness of the response object,
which is `False` whenever the status is 400 or above, so the
`Response status code:` and `Response content:` lines are never printed on
this path, contrary to the spec. -/
theorem http_error_omits_status_and_body (r : HttpResponse)
    (h : 400 ≤ r.status_code) :
    make_api_request (Except.ok r) =
      (["Error making API request: " ++ (toString r.status_code ++ " Error for url")],
        Except.error (PyErr.requestException (toString r.status_code ++ " Error for url"))) := by
  have htruthy : responseTruthy r = false := by
    simp [responseTruthy]
    omega
  simp [make_api_request, requestExceptHandler, h, htruthy]

/-- Witness for C5's evidence theorem: a 500 response with body `oops`
produces exactly the single error line (no status line, no body line) and
re-raises. -/
theorem http_error_omits_status_and_body_witness :
    400 ≤ (500 : Nat) ∧
    make_api_request (Except.ok ⟨500, "oops", none⟩) =
      (["Error making API request: 500 Error for url"],
        Except.error (PyErr.requestException "500 Error for url")) :=
  ⟨by decide,
    (http_error_omits_status_and_body ⟨500, "oops", none⟩ (by decide)).trans rfl⟩

/-- C3 counterexample: for the payload string `{"service_token": "orig"}`
the original pair is lost from the sent body — the insert overwrites it
with the resolved token — and with `--header-name Content-Type` the header
dict maps that name to `application/json`, not to the API token `tok`. -/
theorem payload_key_collision_loses_data :
    (("service_token", JVal.str "orig") ∈ ([("service_token", JVal.str "orig")] : PyDict JVal))
    ∧ ("service_token", JVal.str "orig") ∉
        requestBody [("service_token", JVal.str "orig")] "tok" "https://addr"
    ∧ dictGet (requestBody [("service_token", JVal.str "orig")] "tok" "https://addr")
        "service_token" = some (JVal.str "tok")
    ∧ dictGet (requestHeaders "Content-Type" "tok") "Content-Type" =
        some "application/json" := by
  refine ⟨List.mem_singleton_self _, ?_, rfl, rfl⟩
  intro hmem
  have hbody : requestBody [("service_token", JVal.str "orig")] "tok" "https://addr" =
      [("service_token", JVal.str "tok"), ("api_address", JVal.str "https://addr")] := rfl
  rw [hbody] at hmem
  rcases List.mem_cons.mp hmem with h1 | h1
  · have h2 : JVal.str "orig" = JVal.str "tok" := congrArg Prod.snd h1
    injection h2 with h3
    exact absurd h3 (by decide)
  · rw [List.mem_singleton] at h1
    have h2 : "service_token" = "api_address" := congrArg Prod.fst h1
    exact absurd h2 (by decide)

/-- C3 amended: the sent body is the parsed payload with the token under
`service_token` and the address under `api_address`; every original pair
whose key differs from those two designated keys is preserved (pairs under
the designated keys are overwritten), and when the configured header name
is not `Content-Type` the request carries the header name bound to the API
token together with `Content-Type: application/json`; the registration
event of a successful run carries exactly these headers and this body. -/
theorem request_body_preserves_noncolliding_keys
    (payload0 : PyDict JVal) (tok url header_name api_token k : String)
    (hk1 : k ≠ "service_token") (hk2 : k ≠ "api_address")
    (hh : header_name ≠ "Content-Type") :
    dictGet (requestBody payload0 tok url) k = dictGet payload0 k
    ∧ dictGet (requestBody payload0 tok url) "service_token" = some (JVal.str tok)
    ∧ dictGet (requestBody payload0 tok url) "api_address" = some (JVal.str url)
    ∧ dictGet (requestHeaders header_name api_token) header_name = some api_token
    ∧ dictGet (requestHeaders header_name api_token) "Content-Type" =
        some "application/json"
    ∧ (∀ args w,
        args.header_name = header_name → args.api_token = some api_token →
        pyTruthy args.api_url = true → api_token ≠ "" →
        (get_service_account_token w.saResult w.fetch args.service_account_name).2 =
          some tok →
        w.parse = Except.ok payload0 →
        (get_k8s_api_url_from_cluster_info w.clusterInfo).2 = some url →
        Event.registrationCall (requestHeaders header_name api_token)
          (requestBody payload0 tok url) ∈ (mainRun args w).1) := by
  refine ⟨?_, ?_, ?_, ?_, ?_, ?_⟩
  · rw [requestBody, dictGet_dictInsert_ne _ _ _ _ hk2, dictGet_dictInsert_ne _ _ _ _ hk1]
  · rw [requestBody,
      dictGet_dictInsert_ne _ _ _ _ (by decide : ("service_token" : String) ≠ "api_address"),
      dictGet_dictInsert_self]
  · rw [requestBody, dictGet_dictInsert_self]
  · rw [requestHeaders, dictGet_dictInsert_ne _ _ _ _ hh, dictGet_dictInsert_self]
  · rw [requestHeaders, dictGet_dictInsert_self]
  · intro args w hhn hat hu hne htok hparse hurl
    have htr : pyTruthy args.api_token = true := by
      rw [hat]
      simp [pyTruthy, hne]
    unfold mainRun
    rw [hu, htr, hparse, hhn, hat]
    rcases hsa : get_service_account_token w.saResult w.fetch args.service_account_name
      with ⟨saOut, tokO⟩
    rw [hsa] at htok
    have htok' : tokO = some tok := htok
    subst htok'
    rcases hci : get_k8s_api_url_from_cluster_info w.clusterInfo with ⟨ciOut, urlO⟩
    rw [hci] at hurl
    have hurl' : urlO = some url := hurl
    subst hurl'
    simp only [Bool.and_self, Bool.not_true, Bool.false_eq_true, if_neg, not_false_iff,
      Option.getD_some]
    cases hreq : (make_api_request w.post).2 with
    | ok u =>
      simp [requestBody, List.mem_append]
    | error e =>
      simp [requestBody, List.mem_append]

/-! ## Lemmas about run traces -/

@[simp] theorem isRegCall_print (s : String) : (Event.print s).isRegCall = false := rfl

@[simp] theorem isRegCall_kubeLookup : (Event.kubeLookup).isRegCall = false := rfl

@[simp] theorem isRegCall_clusterInfoCall : (Event.clusterInfoCall).isRegCall = false := rfl

@[simp] theorem isRegCall_registrationCall (h : PyDict String) (b : PyDict JVal) :
    (Event.registrationCall h b).isRegCall = true := rfl

@[simp] theorem isKubeLookup_print (s : String) : (Event.print s).isKubeLookup = false := rfl

@[simp] theorem isClusterInfoCall_print (s : String) :
    (Event.print s).isClusterInfoCall = false := rfl

@[simp] theorem isClusterInfoCall_kubeLookup :
    (Event.kubeLookup).isClusterInfoCall = false := rfl

@[simp] theorem map_print_all_noReg (l : List String) :
    (l.map Event.print).all (fun e => !e.isRegCall) = true := by
  induction l with
  | nil => rfl
  | cons s l ih => simp [ih]

@[simp] theorem map_print_any_reg (l : List String) :
    (l.map Event.print).any (fun e => e.isRegCall) = false := by
  induction l with
  | nil => rfl
  | cons s l ih => simp [ih]

@[simp] theorem map_print_all_noCiNoReg (l : List String) :
    (l.map Event.print).all (fun e => !e.isClusterInfoCall && !e.isRegCall) = true := by
  induction l with
  | nil => rfl
  | cons s l ih => simp [ih]

@[simp] theorem map_print_all_guard (l : List String) :
    (l.map Event.print).all
      (fun e => !e.isKubeLookup && !e.isClusterInfoCall && !e.isRegCall) = true := by
  induction l with
  | nil => rfl
  | cons s l ih => simp [ih]

/-- C4: no registration POST happens unless every earlier stage succeeded.
Missing `--api-url`/`--api-token` exits 1 with neither a Kubernetes lookup
nor a cluster-info call nor a registration call; a payload that fails to
parse exits 1 with no registration call; a token- or address-resolution
failure exits 1 with no registration call; and conversely a trace that
contains a registration call certifies that the arguments were present and
that the token, the payload and the address all resolved. -/
theorem no_partial_registration (args : Args) (w : World) :
    ((pyTruthy args.api_url = false ∨ pyTruthy args.api_token = false) →
        (mainRun args w).2 = 1 ∧
        (mainRun args w).1.all
          (fun e => !e.isKubeLookup && !e.isClusterInfoCall && !e.isRegCall) = true)
    ∧ (∀ e, w.parse = Except.error e →
        (mainRun args w).2 = 1 ∧
        (mainRun args w).1.all (fun ev => !ev.isRegCall) = true)
    ∧ ((get_service_account_token w.saResult w.fetch args.service_account_name).2 = none →
        (mainRun args w).2 = 1 ∧
        (mainRun args w).1.all (fun ev => !ev.isRegCall) = true)
    ∧ ((get_k8s_api_url_from_cluster_info w.clusterInfo).2 = none →
        (mainRun args w).2 = 1 ∧
        (mainRun args w).1.all (fun ev => !ev.isRegCall) = true)
    ∧ ((mainRun args w).1.any (fun ev => ev.isRegCall) = true →
        pyTruthy args.api_url = true ∧ pyTruthy args.api_token = true ∧
        (∃ t, (get_service_account_token w.saResult w.fetch
          args.service_account_name).2 = some t) ∧
        (∃ p, w.parse = Except.ok p) ∧
        (∃ u, (get_k8s_api_url_from_cluster_info w.clusterInfo).2 = some u)) := by
  rcases hsa : get_service_account_token w.saResult w.fetch args.service_account_name
    with ⟨saOut, tokO⟩
  rcases hci : get_k8s_api_url_from_cluster_info w.clusterInfo with ⟨ciOut, urlO⟩
  by_cases hA : (pyTruthy args.api_url && pyTruthy args.api_token) = true
  · obtain ⟨hA1, hA2⟩ : pyTruthy args.api_url = true ∧ pyTruthy args.api_token = true := by
      simpa using hA
    unfold mainRun
    rw [hsa, hci, hA]
    cases tokO with
    | none =>
      refine ⟨fun h => ?_, fun e hp => ⟨rfl, ?_⟩, fun _ => ⟨rfl, ?_⟩,
        fun _ => ⟨rfl, ?_⟩, fun h => ?_⟩
      · rcases h with h | h
        · simp [hA1] at h
        · simp [hA2] at h
      · simp
      · simp
      · simp
      · simp at h
    | some tok =>
      cases hp : w.parse with
      | error e =>
        refine ⟨fun h => ?_, fun e' hp' => ⟨rfl, ?_⟩, fun h => ?_, fun _ => ⟨rfl, ?_⟩,
          fun h => ?_⟩
        · rcases h with h | h
          · simp [hA1] at h
          · simp [hA2] at h
        · simp
        · exact (Option.some_ne_none tok h).elim
        · simp
        · simp at h
      | ok payload0 =>
        cases urlO with
        | none =>
          refine ⟨fun h => ?_, fun e' hp' => ?_, fun h => ?_, fun _ => ⟨rfl, ?_⟩,
            fun h => ?_⟩
          · rcases h with h | h
            · simp [hA1] at h
            · simp [hA2] at h
          · cases hp'
          · exact (Option.some_ne_none tok h).elim
          · simp
          · simp at h
        | some url =>
          refine ⟨fun h => ?_, fun e' hp' => ?_, fun h => ?_, fun h => ?_, fun _ => ?_⟩
          · rcases h with h | h
            · simp [hA1] at h
            · simp [hA2] at h
          · cases hp'
          · exact (Option.some_ne_none tok h).elim
          · exact (Option.some_ne_none url h).elim
          · exact ⟨hA1, hA2, ⟨tok, rfl⟩, ⟨payload0, rfl⟩, ⟨url, rfl⟩⟩
  · have hA' : (pyTruthy args.api_url && pyTruthy args.api_token) = false :=
      Bool.eq_false_iff.mpr hA
    unfold mainRun
    rw [hA']
    refine ⟨fun _ => ⟨rfl, by simp⟩, fun e hp => ⟨rfl, by simp⟩,
      fun _ => ⟨rfl, by simp⟩, fun _ => ⟨rfl, by simp⟩, fun h => ?_⟩
    simp at h

/-- Witness for C4: with `--api-url` absent the run exits 1 having done
nothing but print the usage error; with everything present but an
unparsable payload the run exits 1 without a registration call. -/
theorem no_partial_registration_witness :
    (mainRun
      ⟨none, "X-API-Token", some "tok", "{}", "default", "default"⟩
      ⟨Except.ok [], fun _ => Except.error ⟨"e"⟩, Except.error "bad json",
        ClusterInfoRun.ok "", Except.error "unreachable"⟩).2 = 1 ∧
    (mainRun
      ⟨none, "X-API-Token", some "tok", "{}", "default", "default"⟩
      ⟨Except.ok [], fun _ => Except.error ⟨"e"⟩, Except.error "bad json",
        ClusterInfoRun.ok "", Except.error "unreachable"⟩).1.all
      (fun e => !e.isKubeLookup && !e.isClusterInfoCall && !e.isRegCall) = true ∧
    (mainRun
      ⟨some "https://api", "X-API-Token", some "tok", "not-json", "default", "default"⟩
      ⟨Except.ok ["s1"], fun _ => Except.ok ⟨saTokenType, [("token", "sat")]⟩,
        Except.error "Expecting value", ClusterInfoRun.ok "", Except.error "unreachable"⟩).2 = 1 ∧
    (mainRun
      ⟨some "https://api", "X-API-Token", some "tok", "not-json", "default", "default"⟩
      ⟨Except.ok ["s1"], fun _ => Except.ok ⟨saTokenType, [("token", "sat")]⟩,
        Except.error "Expecting value", ClusterInfoRun.ok "", Except.error "unreachable"⟩).1.all
      (fun ev => !ev.isRegCall) = true := by
  refine ⟨?_, ?_, ?_, ?_⟩
  · exact ((no_partial_registration
      ⟨none, "X-API-Token", some "tok", "{}", "default", "default"⟩
      ⟨Except.ok [], fun _ => Except.error ⟨"e"⟩, Except.error "bad json",
        ClusterInfoRun.ok "", Except.error "unreachable"⟩).1 (Or.inl rfl)).1
  · exact ((no_partial_registration
      ⟨none, "X-API-Token", some "tok", "{}", "default", "default"⟩
      ⟨Except.ok [], fun _ => Except.error ⟨"e"⟩, Except.error "bad json",
        ClusterInfoRun.ok "", Except.error "unreachable"⟩).1 (Or.inl rfl)).2
  · exact ((no_partial_registration
      ⟨some "https://api", "X-API-Token", some "tok", "not-json", "default", "default"⟩
      ⟨Except.ok ["s1"], fun _ => Except.ok ⟨saTokenType, [("token", "sat")]⟩,
        Except.error "Expecting value", ClusterInfoRun.ok "",
        Except.error "unreachable"⟩).2.1 "Expecting value" rfl).1
  · exact ((no_partial_registration
      ⟨some "https://api", "X-API-Token", some "tok", "not-json", "default", "default"⟩
      ⟨Except.ok ["s1"], fun _ => Except.ok ⟨saTokenType, [("token", "sat")]⟩,
        Except.error "Expecting value", ClusterInfoRun.ok "",
        Except.error "unreachable"⟩).2.1 "Expecting value" rfl).2

/-! ## Lemmas about the printed payload -/

theorem infix_append_str (l : List Char) (a b : String) (h : l <:+: b.data) :
    l <:+: (a ++ b).data := by
  rw [String.data_append]
  obtain ⟨u, v, huv⟩ := h
  exact ⟨a.data ++ u, v, by rw [← huv]; simp⟩

theorem infix_str_append_left (l : List Char) (a b : String) (h : l <:+: a.data) :
    l <:+: (a ++ b).data := by
  rw [String.data_append]
  obtain ⟨u, v, huv⟩ := h
  exact ⟨u, v ++ b.data, by rw [← huv]; simp⟩

theorem str_infix_reprJVal (s : String) : s.data <:+: (reprJVal (JVal.str s)).data := by
  show s.data <:+: ("'" ++ s ++ "'").data
  rw [String.data_append, String.data_append]
  exact ⟨"'".data, "'".data, rfl⟩

/-- A string bound in a dict appears verbatim inside the dict's `repr`. -/
theorem str_infix_reprJFields (d : PyDict JVal) (k s : String)
    (h : (k, JVal.str s) ∈ d) : s.data <:+: (reprJFields d).data := by
  induction d with
  | nil => simp at h
  | cons p d ih =>
    rcases List.mem_cons.mp h with h1 | h1
    · subst h1
      cases d with
      | nil =>
        show s.data <:+: ("'" ++ k ++ "': " ++ reprJVal (JVal.str s)).data
        exact infix_append_str _ _ _ (str_infix_reprJVal s)
      | cons q rest =>
        show s.data <:+:
          ("'" ++ k ++ "': " ++ reprJVal (JVal.str s) ++ ", " ++
            reprJFields (q :: rest)).data
        exact infix_str_append_left _ _ _ (infix_str_append_left _ _ _
          (infix_append_str _ _ _ (str_infix_reprJVal s)))
    · cases d with
      | nil => simp at h1
      | cons q rest =>
        show s.data <:+:
          ("'" ++ p.1 ++ "': " ++ reprJVal p.2 ++ ", " ++ reprJFields (q :: rest)).data
        exact infix_append_str _ _ _ (ih h1)

/-- C9: whenever the token resolves and the payload parses, the run prints
the whole mutated payload — the raw service-account token appears verbatim
inside the printed line — and this print precedes both the cluster-info
call and the registration call in the trace. -/
theorem token_printed_in_clear_before_network
    (args : Args) (w : World) (tok : String) (payload0 : PyDict JVal)
    (hu : pyTruthy args.api_url = true) (ht : pyTruthy args.api_token = true)
    (htok : (get_service_account_token w.saResult w.fetch
      args.service_account_name).2 = some tok)
    (hparse : w.parse = Except.ok payload0) :
    ∃ pre post,
      (mainRun args w).1 =
        pre ++ Event.print
          (reprPayload (dictInsert payload0 "service_token" (JVal.str tok))) :: post
      ∧ pre.all (fun e => !e.isClusterInfoCall && !e.isRegCall) = true
      ∧ tok.data <:+:
          (reprPayload (dictInsert payload0 "service_token" (JVal.str tok))).data := by
  have hinfix : tok.data <:+:
      (reprPayload (dictInsert payload0 "service_token" (JVal.str tok))).data := by
    have h1 := str_infix_reprJFields _ _ _
      (mem_dictInsert_self payload0 "service_token" (JVal.str tok))
    show tok.data <:+:
      ("\x7b" ++ reprJFields (dictInsert payload0 "service_token" (JVal.str tok)) ++ "\x7d").data
    exact infix_str_append_left _ _ _ (infix_append_str _ _ _ h1)
  have hA : (pyTruthy args.api_url && pyTruthy args.api_token) = true := by
    simp [hu, ht]
  rcases hsa : get_service_account_token w.saResult w.fetch args.service_account_name
    with ⟨saOut, tokO⟩
  rw [hsa] at htok
  have htokO : tokO = some tok := htok
  subst htokO
  unfold mainRun
  rw [hsa, hparse, hA]
  rcases hci : get_k8s_api_url_from_cluster_info w.clusterInfo with ⟨ciOut, urlO⟩
  cases urlO with
  | none =>
    refine ⟨Event.kubeLookup :: saOut.map Event.print,
      Event.clusterInfoCall :: ciOut.map Event.print ++
        [Event.print "Failed to retrieve Kubernetes API address. Exiting."],
      ?_, by simp, hinfix⟩
    simp
  | some url =>
    cases hreq : (make_api_request w.post).2 with
    | ok u =>
      refine ⟨Event.kubeLookup :: saOut.map Event.print,
        Event.clusterInfoCall :: ciOut.map Event.print ++
          Event.registrationCall
            (requestHeaders args.header_name (args.api_token.getD ""))
            (dictInsert (dictInsert payload0 "service_token" (JVal.str tok))
              "api_address" (JVal.str url)) ::
          (make_api_request w.post).1.map Event.print,
        ?_, by simp, hinfix⟩
      simp [hreq]
    | error e =>
      cases e with
      | requestException m =>
        refine ⟨Event.kubeLookup :: saOut.map Event.print,
          Event.clusterInfoCall :: ciOut.map Event.print ++
            Event.registrationCall
              (requestHeaders args.header_name (args.api_token.getD ""))
              (dictInsert (dictInsert payload0 "service_token" (JVal.str tok))
                "api_address" (JVal.str url)) ::
            (make_api_request w.post).1.map Event.print ++
            [Event.print ("An error occurred during API request: " ++ m)],
          ?_, by simp, hinfix⟩
        simp [hreq]
      | unboundLocal =>
        refine ⟨Event.kubeLookup :: saOut.map Event.print,
          Event.clusterInfoCall :: ciOut.map Event.print ++
            Event.registrationCall
              (requestHeaders args.header_name (args.api_token.getD ""))
              (dictInsert (dictInsert payload0 "service_token" (JVal.str tok))
                "api_address" (JVal.str url)) ::
            (make_api_request w.post).1.map Event.print ++
            [Event.print ("An error occurred during API request: " ++
              "cannot access local variable 'response' where it is not associated with a value")],
          ?_, by simp, hinfix⟩
        simp [hreq]

/-- Witness for C9: a concrete successful run prints
`{'name': 'x', 'service_token': 'sat'}` — token in clear — before the
cluster-info call and the registration call. -/
theorem token_printed_in_clear_before_network_witness :
    ∃ pre post,
      (mainRun ⟨some "https://api", "X-API-Token", some "tok", "{}", "default", "default"⟩
        ⟨Except.ok ["s1"], fun _ => Except.ok ⟨saTokenType, [("token", "sat")]⟩,
          Except.ok [("name", JVal.str "x")],
          ClusterInfoRun.ok "Kubernetes control plane is running at https://1.2.3.4:6443",
          Except.ok ⟨200, "done", some "pretty"⟩⟩).1 =
        pre ++ Event.print
          (reprPayload (dictInsert [("name", JVal.str "x")] "service_token"
            (JVal.str "sat"))) :: post
      ∧ pre.all (fun e => !e.isClusterInfoCall && !e.isRegCall) = true
      ∧ "sat".data <:+:
          (reprPayload (dictInsert [("name", JVal.str "x")] "service_token"
            (JVal.str "sat"))).data :=
  token_printed_in_clear_before_network
    ⟨some "https://api", "X-API-Token", some "tok", "{}", "default", "default"⟩
    ⟨Except.ok ["s1"], fun _ => Except.ok ⟨saTokenType, [("token", "sat")]⟩,
      Except.ok [("name", JVal.str "x")],
      ClusterInfoRun.ok "Kubernetes control plane is running at https://1.2.3.4:6443",
      Except.ok ⟨200, "done", some "pretty"⟩⟩
    "sat" [("name", JVal.str "x")] (by decide) (by decide) rfl rfl

/-! ## Lemmas about the regex embedding -/

theorem dropLit_eq (p : List Char) : ∀ s r, dropLit p s = some r ↔ s = p ++ r := by
  induction p with
  | nil =>
    intro s r
    simp [dropLit]
  | cons c cs ih =>
    intro s r
    cases s with
    | nil => simp [dropLit]
    | cons a as =>
      by_cases hca : c = a
      · subst hca
        simp [dropLit, ih]
      · have hf : (c == a) = false := by simp [hca]
        simp [dropLit, hf, Ne.symm hca]

theorem dropWhile_head_false {α : Type} (p : α → Bool) (l : List α) (c : α)
    (tl : List α) (h : l.dropWhile p = c :: tl) : p c = false := by
  induction l with
  | nil => simp [List.dropWhile] at h
  | cons a as ih =>
    rw [List.dropWhile_cons] at h
    by_cases hp : p a = true
    · rw [if_pos hp] at h
      exact ih h
    · rw [if_neg hp] at h
      injection h with h1 _
      subst h1
      exact Bool.eq_false_iff.mpr hp

/-- Any successful `matchAt` decomposes its input as the marker, then a
non-empty whitespace run, then the captured group (scheme-prefixed and
newline-free), then a remainder that is empty or starts at a newline. -/
theorem matchAt_sound (s g : List Char) (h : matchAt s = some g) :
    ∃ w t2, s = marker ++ w ++ g ++ t2 ∧ w ≠ [] ∧ (∀ c ∈ w, isPySpace c = true) ∧
      ("https://".data <+: g ∨ "http://".data <+: g) ∧
      (∀ c ∈ g, (c == '\n') = false) ∧
      (t2 = [] ∨ ∃ c tl, t2 = c :: tl ∧ c = '\n') := by
  unfold matchAt at h
  cases hdrop : dropLit marker s with
  | none => rw [hdrop] at h; cases h
  | some rest =>
    rw [hdrop] at h
    simp only at h
    by_cases hws : (rest.takeWhile isPySpace).isEmpty
    · rw [if_pos hws] at h; cases h
    · rw [if_neg hws] at h
      have hsplit : s = marker ++ rest := (dropLit_eq marker s rest).mp hdrop
      have hwd : rest = rest.takeWhile isPySpace ++ rest.dropWhile isPySpace :=
        (List.takeWhile_append_dropWhile _ _).symm
      have hwne : rest.takeWhile isPySpace ≠ [] := by
        intro hx
        exact hws (List.isEmpty_iff.mpr hx)
      have hwsp : ∀ c ∈ rest.takeWhile isPySpace, isPySpace c = true :=
        fun c hc => List.mem_takeWhile_imp hc
      cases hh : dropLit "https://".data (rest.dropWhile isPySpace) with
      | some tail =>
        rw [hh] at h
        have hg : g = "https://".data ++ tail.takeWhile (fun c => !(c == '\n')) := by
          injection h with h'
          exact h'.symm
        have htail : rest.dropWhile isPySpace = "https://".data ++ tail :=
          (dropLit_eq _ _ _).mp hh
        have htk : tail = tail.takeWhile (fun c => !(c == '\n')) ++
            tail.dropWhile (fun c => !(c == '\n')) :=
          (List.takeWhile_append_dropWhile _ _).symm
        refine ⟨rest.takeWhile isPySpace, tail.dropWhile (fun c => !(c == '\n')),
          ?_, hwne, hwsp, Or.inl (by rw [hg]; exact List.prefix_append _ _), ?_, ?_⟩
        · rw [hsplit]
          conv_lhs => rw [hwd, htail, htk]
          rw [hg]
          simp [List.append_assoc]
        · intro c hc
          rw [hg] at hc
          rcases List.mem_append.mp hc with hc | hc
          · have hall : ∀ c ∈ "https://".data, (c == '\n') = false := by decide
            exact hall c hc
          · have := List.mem_takeWhile_imp hc
            simpa using this
        · cases ht2 : tail.dropWhile (fun c => !(c == '\n')) with
          | nil => exact Or.inl rfl
          | cons c tl =>
            refine Or.inr ⟨c, tl, rfl, ?_⟩
            have := dropWhile_head_false (fun c => !(c == '\n')) tail c tl ht2
            simpa using this
      | none =>
        rw [hh] at h
        cases hh2 : dropLit "http://".data (rest.dropWhile isPySpace) with
        | none => rw [hh2] at h; cases h
        | some tail =>
          rw [hh2] at h
          have hg : g = "http://".data ++ tail.takeWhile (fun c => !(c == '\n')) := by
            injection h with h'
            exact h'.symm
          have htail : rest.dropWhile isPySpace = "http://".data ++ tail :=
            (dropLit_eq _ _ _).mp hh2
          have htk : tail = tail.takeWhile (fun c => !(c == '\n')) ++
              tail.dropWhile (fun c => !(c == '\n')) :=
            (List.takeWhile_append_dropWhile _ _).symm
          refine ⟨rest.takeWhile isPySpace, tail.dropWhile (fun c => !(c == '\n')),
            ?_, hwne, hwsp, Or.inr (by rw [hg]; exact List.prefix_append _ _), ?_, ?_⟩
          · rw [hsplit]
            conv_lhs => rw [hwd, htail, htk]
            rw [hg]
            simp [List.append_assoc]
          · intro c hc
            rw [hg] at hc
            rcases List.mem_append.mp hc with hc | hc
            · have hall : ∀ c ∈ "http://".data, (c == '\n') = false := by decide
              exact hall c hc
            · have := List.mem_takeWhile_imp hc
              simpa using this
          · cases ht2 : tail.dropWhile (fun c => !(c == '\n')) with
            | nil => exact Or.inl rfl
            | cons c tl =>
              refine Or.inr ⟨c, tl, rfl, ?_⟩
              have := dropWhile_head_false (fun c => !(c == '\n')) tail c tl ht2
              simpa using this

/-- `reSearch` returns the leftmost match: the pattern matches where the
result was taken and at no earlier position. -/
theorem reSearch_leftmost (s g : List Char) (h : reSearch s = some g) :
    ∃ i, matchAt (s.drop i) = some g ∧ ∀ j < i, matchAt (s.drop j) = none := by
  induction s with
  | nil => simp [reSearch] at h
  | cons c rest ih =>
    rw [reSearch] at h
    cases hm : matchAt (c :: rest) with
    | some g' =>
      rw [hm] at h
      injection h with h'
      subst h'
      exact ⟨0, by simpa using hm, fun j hj => absurd hj (Nat.not_lt_zero j)⟩
    | none =>
      rw [hm] at h
      obtain ⟨i, hi, hlt⟩ := ih h
      refine ⟨i + 1, ?_, ?_⟩
      · simpa [List.drop_succ_cons] using hi
      · intro j hj
        cases j with
        | zero => simpa using hm
        | succ j' =>
          rw [List.drop_succ_cons]
          exact hlt j' (Nat.lt_of_succ_lt_succ hj)

theorem marker_present_of_reSearch (s g : List Char) (h : reSearch s = some g) :
    marker <:+: s := by
  obtain ⟨i, hi, _⟩ := reSearch_leftmost s g h
  obtain ⟨w, t2, hsplit, _⟩ := matchAt_sound _ _ hi
  refine ⟨s.take i, w ++ g ++ t2, ?_⟩
  conv_rhs => rw [← List.take_append_drop i s, hsplit]
  simp [List.append_assoc]

theorem reSearch_none_of_no_marker (s : List Char) (h : ¬ marker <:+: s) :
    reSearch s = none := by
  cases hr : reSearch s with
  | none => rfl
  | some g => exact absurd (marker_present_of_reSearch s g hr) h

/-- C8: variant B returns the first URL following the marker phrase
`Kubernetes control plane is running at` (concretely, and in general the
returned group sits right after the leftmost match of the marker plus
whitespace, carries an `http://`/`https://` scheme and runs to the end of
its line); a non-zero exit of the command, any other exception, or output
without the marker each produce a printed diagnostic and `None`, so
nothing escapes this boundary. -/
theorem cluster_info_resolver_contract :
    (get_k8s_api_url_from_cluster_info
        (ClusterInfoRun.ok "Kubernetes control plane is running at https://1.2.3.4:6443") =
      (["Kubernetes API URL (from cluster-info): https://1.2.3.4:6443"],
        some "https://1.2.3.4:6443"))
    ∧ (get_k8s_api_url_from_cluster_info
        (ClusterInfoRun.ok ("Kubernetes control plane is running at https://1.2.3.4:6443\nKubernetes control plane is running at https://5.6.7.8:9999")) =
      (["Kubernetes API URL (from cluster-info): https://1.2.3.4:6443"],
        some "https://1.2.3.4:6443"))
    ∧ (∀ m, get_k8s_api_url_from_cluster_info (ClusterInfoRun.calledProcessError m) =
        (["Error running 'kubectl cluster-info': " ++ m], none))
    ∧ (∀ m, get_k8s_api_url_from_cluster_info (ClusterInfoRun.otherError m) =
        (["An unexpected error occurred: " ++ m], none))
    ∧ (∀ out : String, ¬ marker <:+: out.data →
        get_k8s_api_url_from_cluster_info (ClusterInfoRun.ok out) =
          (["Error: Could not parse Kubernetes API URL from 'kubectl cluster-info' output."],
            none))
    ∧ (∀ out : String, ∀ g : List Char, reSearch out.data = some g →
        get_k8s_api_url_from_cluster_info (ClusterInfoRun.ok out) =
          (["Kubernetes API URL (from cluster-info): " ++ String.mk g],
            some (String.mk g))
        ∧ ∃ i, (∀ j < i, matchAt (out.data.drop j) = none)
            ∧ ∃ w t2, out.data.drop i = marker ++ w ++ g ++ t2
                ∧ w ≠ [] ∧ (∀ c ∈ w, isPySpace c = true)
                ∧ ("https://".data <+: g ∨ "http://".data <+: g)
                ∧ (∀ c ∈ g, (c == '\n') = false)
                ∧ (t2 = [] ∨ ∃ c tl, t2 = c :: tl ∧ c = '\n')) := by
  refine ⟨by decide, by decide, fun m => rfl, fun m => rfl, ?_, ?_⟩
  · intro out hno
    have h := reSearch_none_of_no_marker out.data hno
    simp [get_k8s_api_url_from_cluster_info, h]
  · intro out g hsearch
    constructor
    · simp [get_k8s_api_url_from_cluster_info, hsearch]
    · obtain ⟨i, hi, hlt⟩ := reSearch_leftmost out.data g hsearch
      obtain ⟨w, t2, hsplit, hw, hwsp, hsch, hnl, ht2⟩ := matchAt_sound _ _ hi
      exact ⟨i, hlt, w, t2, hsplit, hw, hwsp, hsch, hnl, ht2⟩

/-- Witness for C8: output without the marker phrase yields the parse
diagnostic and `None`; the concrete marker text yields its URL, with the
structural decomposition. -/
theorem cluster_info_resolver_contract_witness :
    get_k8s_api_url_from_cluster_info (ClusterInfoRun.ok "no url in this text") =
      (["Error: Could not parse Kubernetes API URL from 'kubectl cluster-info' output."],
        none)
    ∧ get_k8s_api_url_from_cluster_info (ClusterInfoRun.calledProcessError "exit status 1") =
      (["Error running 'kubectl cluster-info': " ++ "exit status 1"], none)
    ∧ (get_k8s_api_url_from_cluster_info
        (ClusterInfoRun.ok "Kubernetes control plane is running at https://1.2.3.4:6443") =
      (["Kubernetes API URL (from cluster-info): " ++
          String.mk "https://1.2.3.4:6443".data],
        some (String.mk "https://1.2.3.4:6443".data))) := by
  refine ⟨?_, ?_, ?_⟩
  · exact cluster_info_resolver_contract.2.2.2.2.1 "no url in this text" (by decide)
  · exact cluster_info_resolver_contract.2.2.1 "exit status 1"
  · exact (cluster_info_resolver_contract.2.2.2.2.2
      "Kubernetes control plane is running at https://1.2.3.4:6443"
      "https://1.2.3.4:6443".data (by decide)).1

/-- Witness for the amended C3: with payload `{"name": "x"}`, token `tok`,
address `https://addr` and header name `X-API-Token`, the body keeps the
original pair and gains the two designated keys, the headers carry the
token and the content type, and the registration event of a concrete
successful run carries exactly these headers and this body. -/
theorem request_body_preserves_noncolliding_keys_witness :
    dictGet (requestBody [("name", JVal.str "x")] "tok" "https://addr") "name" =
      dictGet [("name", JVal.str "x")] "name"
    ∧ dictGet (requestBody [("name", JVal.str "x")] "tok" "https://addr")
        "service_token" = some (JVal.str "tok")
    ∧ dictGet (requestBody [("name", JVal.str "x")] "tok" "https://addr")
        "api_address" = some (JVal.str "https://addr")
    ∧ dictGet (requestHeaders "X-API-Token" "apitok") "X-API-Token" = some "apitok"
    ∧ dictGet (requestHeaders "X-API-Token" "apitok") "Content-Type" =
        some "application/json"
    ∧ Event.registrationCall (requestHeaders "X-API-Token" "apitok")
        (requestBody [("name", JVal.str "x")] "tok" "https://addr") ∈
      (mainRun
        ⟨some "https://api", "X-API-Token", some "apitok", "{}", "default", "default"⟩
        ⟨Except.ok ["s1"], fun _ => Except.ok ⟨saTokenType, [("token", "tok")]⟩,
          Except.ok [("name", JVal.str "x")],
          ClusterInfoRun.ok "Kubernetes control plane is running at https://addr",
          Except.ok ⟨200, "done", none⟩⟩).1 := by
  have h := request_body_preserves_noncolliding_keys [("name", JVal.str "x")] "tok"
    "https://addr" "X-API-Token" "apitok" "name" (by decide) (by decide) (by decide)
  refine ⟨h.1, h.2.1, h.2.2.1, h.2.2.2.1, h.2.2.2.2.1, ?_⟩
  exact h.2.2.2.2.2
    ⟨some "https://api", "X-API-Token", some "apitok", "{}", "default", "default"⟩
    ⟨Except.ok ["s1"], fun _ => Except.ok ⟨saTokenType, [("token", "tok")]⟩,
      Except.ok [("name", JVal.str "x")],
      ClusterInfoRun.ok "Kubernetes control plane is running at https://addr",
      Except.ok ⟨200, "done", none⟩⟩
    rfl rfl (by decide) (by decide) (by decide) rfl (by decide)

end RegisterK8s
